import Mathlib

/-!
Verification of the worker-cache registry (`nvtabular/worker.py`).

The module keeps a process-wide fallback cache dictionary `_WORKER_CACHE`
plus, for distributed execution, a `worker_cache` attribute attached to the
current worker object.  `_get_worker_cache(name)` resolves the store for
the current execution context and returns (creating it if needed) the
named sub-dictionary; `clean_worker_cache(name=None)` deletes one named
entry or tears the whole store down.

Shallow embedding choices:
* Python dictionaries are association lists with unique keys; `alookup`,
  `aset` and `aerase` model `d[k]`, `d[k] = v` and `del d[k]`.
* The execution context is `Option Nat`: `none` models the branch where
  `dask.distributed.get_worker()` raises `ValueError` (no worker), and
  `some w` identifies a distributed worker.
* `CacheState` carries the fallback dictionary and, per worker id, the
  optional `worker_cache` attribute (absence of the entry models
  `hasattr(worker, "worker_cache")` being false).
* Writing through the live handle yielded by `get_worker_cache` mutates
  the dictionary in place; `cacheWrite` models one such write as a state
  update at the handle's location.
* `del d[k]` on a missing key raises `KeyError`; `cleanWorkerCache`
  returns the resulting state together with an optional error.
-/

set_option linter.unusedSectionVars false

namespace NVTabular

/-- Lookup of a key in an association list, first binding wins
(Python dictionary lookup). -/
def alookup {α β : Type} [DecidableEq α] (a : α) : List (α × β) → Option β
  | [] => none
  | (a', b) :: l => if a' = a then some b else alookup a l

/-- Update-or-append of a binding (Python `d[k] = v`): replaces the value of
an existing key in place, otherwise appends the new binding at the end. -/
def aset {α β : Type} [DecidableEq α] (a : α) (b : β) : List (α × β) → List (α × β)
  | [] => [(a, b)]
  | (a', b') :: l => if a' = a then (a, b) :: l else (a', b') :: aset a b l

/-- Removal of a key (Python `del d[k]` when the key is present): drops every
binding of the key, which on a duplicate-free list is the single one. -/
def aerase {α β : Type} [DecidableEq α] (a : α) : List (α × β) → List (α × β)
  | [] => []
  | (a', b) :: l => if a' = a then aerase a l else (a', b) :: aerase a l

/-- A Named Cache: the mutable key/value dictionary handed to callers. -/
abbrev Cache (K V : Type) := List (K × V)

/-- A Store: the per-context dictionary from cache name to Named Cache. -/
abbrev Store (K V : Type) := List (String × Cache K V)

/-- Global state of the registry: the process-wide fallback dictionary
`_WORKER_CACHE` (always bound, initially empty) and, for each worker id,
the optional `worker_cache` attribute attached to that worker object. -/
structure CacheState (K V : Type) where
  fallback : Store K V
  workers : List (Nat × Store K V)
deriving DecidableEq

/-- The error raised by Python when deleting a missing dictionary key. -/
inductive CacheError where
  | keyError : String → CacheError
deriving DecidableEq

/-- Python truthiness of the optional `name` argument: `None` and the empty
string are falsy, every other string is truthy (the source tests `if name:`). -/
def pyTruthy : Option String → Bool
  | none => false
  | some s => decide (s ≠ "")

variable {K V : Type} [DecidableEq K]

/-- Embedding of `_get_worker_cache(name)`:
resolve the store for the current context (fallback dictionary when
`get_worker()` raises, else the worker's `worker_cache` attribute, created
empty when absent), create an empty named entry when missing, and return
the new state together with the named dictionary handed to the caller. -/
def getWorkerCacheRun (ctx : Option Nat) (name : String) (s : CacheState K V) :
    CacheState K V × Cache K V :=
  match ctx with
  | none =>
    match alookup name s.fallback with
    | some c => (s, c)
    | none => ({ s with fallback := aset name [] s.fallback }, [])
  | some w =>
    match alookup w s.workers with
    | none =>
      ({ s with workers := aset w (aset name ([] : Cache K V) []) s.workers }, [])
    | some st =>
      match alookup name st with
      | some c => (s, c)
      | none => ({ s with workers := aset w (aset name [] st) s.workers }, [])

/-- A write through the live handle yielded by `get_worker_cache(name)`:
the handle aliases the named dictionary inside the resolved store, so the
write updates that dictionary in place. -/
def cacheWrite (ctx : Option Nat) (name : String) (k : K) (v : V)
    (s : CacheState K V) : CacheState K V :=
  match ctx with
  | none =>
    let c := aset k v ((alookup name s.fallback).getD [])
    { s with fallback := aset name c s.fallback }
  | some w =>
    let st := (alookup w s.workers).getD []
    let c := aset k v ((alookup name st).getD [])
    { s with workers := aset w (aset name c st) s.workers }

/-- Embedding of `clean_worker_cache(name=None)`.
Fallback context: when `_WORKER_CACHE` is non-empty, a truthy `name` deletes
that entry (`KeyError` when absent), otherwise the whole dictionary is
rebound to a fresh empty one; an empty fallback dictionary is left alone.
Worker context: nothing happens unless the `worker_cache` attribute exists;
then a truthy `name` deletes that entry (`KeyError` when absent, with no
emptiness guard), otherwise the whole attribute is deleted. -/
def cleanWorkerCache (ctx : Option Nat) (name : Option String)
    (s : CacheState K V) : CacheState K V × Option CacheError :=
  match ctx with
  | none =>
    if s.fallback.isEmpty then (s, none)
    else
      if pyTruthy name then
        let n := name.getD ""
        match alookup n s.fallback with
        | some _ => ({ s with fallback := aerase n s.fallback }, none)
        | none => (s, some (CacheError.keyError n))
      else
        ({ s with fallback := [] }, none)
  | some w =>
    match alookup w s.workers with
    | none => (s, none)
    | some st =>
      if pyTruthy name then
        let n := name.getD ""
        match alookup n st with
        | some _ => ({ s with workers := aset w (aerase n st) s.workers }, none)
        | none => (s, some (CacheError.keyError n))
      else
        ({ s with workers := aerase w s.workers }, none)

/-- The store a context resolves to (empty when the worker attribute is
absent); used to observe states in the theorems below. -/
def resolveStore (ctx : Option Nat) (s : CacheState K V) : Store K V :=
  match ctx with
  | none => s.fallback
  | some w => (alookup w s.workers).getD []

section ALemmas

variable {α β : Type} [DecidableEq α]

theorem alookup_aset_self (a : α) (b : β) (l : List (α × β)) :
    alookup a (aset a b l) = some b := by
  induction l with
  | nil => simp [alookup, aset]
  | cons p l ih =>
    obtain ⟨a', b'⟩ := p
    by_cases h : a' = a <;> simp [alookup, aset, h, ih]

theorem alookup_aset_ne {a a' : α} (h : a' ≠ a) (b : β) (l : List (α × β)) :
    alookup a (aset a' b l) = alookup a l := by
  induction l with
  | nil => simp [alookup, aset, h]
  | cons p l ih =>
    obtain ⟨a'', b''⟩ := p
    by_cases h2 : a'' = a' <;> by_cases h3 : a'' = a <;>
      simp_all [alookup, aset]

theorem alookup_aerase_self (a : α) (l : List (α × β)) :
    alookup a (aerase a l) = none := by
  induction l with
  | nil => simp [alookup, aerase]
  | cons p l ih =>
    obtain ⟨a', b'⟩ := p
    by_cases h : a' = a <;> simp [alookup, aerase, h, ih]

theorem alookup_aerase_ne {a a' : α} (h : a' ≠ a) (l : List (α × β)) :
    alookup a (aerase a' l) = alookup a l := by
  induction l with
  | nil => simp [alookup, aerase]
  | cons p l ih =>
    obtain ⟨a'', b''⟩ := p
    by_cases h2 : a'' = a' <;> by_cases h3 : a'' = a <;>
      simp_all [alookup, aerase]

theorem aset_ne_nil (a : α) (b : β) (l : List (α × β)) :
    aset a b l ≠ [] := by
  cases l with
  | nil => simp [aset]
  | cons p l =>
    obtain ⟨a', b'⟩ := p
    by_cases h : a' = a <;> simp [aset, h]

theorem aset_isEmpty (a : α) (b : β) (l : List (α × β)) :
    (aset a b l).isEmpty = false := by
  cases h : aset a b l with
  | nil => exact absurd h (aset_ne_nil a b l)
  | cons p l' => simp

theorem isEmpty_false_of_alookup {a : α} {b : β} {l : List (α × β)}
    (h : alookup a l = some b) : l.isEmpty = false := by
  cases l with
  | nil => simp [alookup] at h
  | cons p l' => simp

end ALemmas

theorem pyTruthy_none_eq : pyTruthy none = false := rfl

theorem pyTruthy_empty_eq : pyTruthy (some "") = false := by
  simp [pyTruthy]

theorem pyTruthy_some_eq {n : String} (h : n ≠ "") : pyTruthy (some n) = true := by
  simp [pyTruthy, h]

/-- C1: two `AcquireNamedCache(n)` calls in sequence with no intervening
release address the same underlying Named Cache: a key/value written through
the handle of the first call is visible through the handle returned by the
second call, and the second call leaves the Store state unchanged. -/
theorem acquire_twice_same_cache (ctx : Option Nat) (n : String) (k : K) (v : V)
    (s : CacheState K V) :
    getWorkerCacheRun ctx n (cacheWrite ctx n k v (getWorkerCacheRun ctx n s).1) =
      (cacheWrite ctx n k v (getWorkerCacheRun ctx n s).1,
        aset k v (getWorkerCacheRun ctx n s).2) ∧
    alookup k
      (getWorkerCacheRun ctx n (cacheWrite ctx n k v (getWorkerCacheRun ctx n s).1)).2 =
      some v := by
  cases ctx with
  | none =>
    cases h : alookup n s.fallback with
    | none => simp [getWorkerCacheRun, cacheWrite, h, alookup_aset_self]
    | some c => simp [getWorkerCacheRun, cacheWrite, h, alookup_aset_self]
  | some w =>
    cases hw : alookup w s.workers with
    | none => simp [getWorkerCacheRun, cacheWrite, hw, alookup_aset_self]
    | some st =>
      cases h : alookup n st with
      | none => simp [getWorkerCacheRun, cacheWrite, hw, h, alookup_aset_self]
      | some c => simp [getWorkerCacheRun, cacheWrite, hw, h, alookup_aset_self]

/-- State reached in the fallback context after acquiring the cache named
`"stats"`, writing `v` under key `k` through the returned handle, and
releasing the whole store with `clean_worker_cache()` (no name). -/
def resetScenario (k : K) (v : V) (s : CacheState K V) : CacheState K V :=
  (cleanWorkerCache none none
    (cacheWrite none "stats" k v (getWorkerCacheRun none "stats" s).1)).1

/-- C3: in the fallback (non-distributed) context, after writing `v` under
name `"stats"` and calling `ReleaseNamedCache()` with no name, the release
raises no error, the fallback Store is re-created empty, and a subsequent
`AcquireNamedCache("stats")` returns an empty Named Cache not containing
`v`. -/
theorem fallback_reset_roundtrip (k : K) (v : V) (s : CacheState K V) :
    (cleanWorkerCache none none
        (cacheWrite none "stats" k v (getWorkerCacheRun none "stats" s).1)).2 = none ∧
    (resetScenario k v s).fallback = [] ∧
    (getWorkerCacheRun none "stats" (resetScenario k v s)).2 = ([] : Cache K V) ∧
    alookup k (getWorkerCacheRun none "stats" (resetScenario k v s)).2 = none := by
  cases h : alookup "stats" s.fallback with
  | none =>
    simp [resetScenario, getWorkerCacheRun, cacheWrite, cleanWorkerCache, h,
      alookup_aset_self, aset_isEmpty, pyTruthy_none_eq, alookup]
  | some c =>
    simp [resetScenario, getWorkerCacheRun, cacheWrite, cleanWorkerCache, h,
      alookup_aset_self, aset_isEmpty, pyTruthy_none_eq, alookup]

/-- C7: `AcquireNamedCache` never fails.  The embedding of
`_get_worker_cache` is a total function with no error outcome — the
`ValueError` of the external worker lookup is caught and modelled by the
`none` context — and in every context the call succeeds and leaves the
returned Named Cache registered under `name` in the resolved Store.  In the
`none` (lookup-failed) context it silently uses the process-wide fallback
Store, returning its existing entry or a freshly created empty one, and
touches no worker state. -/
theorem acquire_never_fails (ctx : Option Nat) (n : String) (s : CacheState K V) :
    alookup n (resolveStore ctx (getWorkerCacheRun ctx n s).1) =
      some (getWorkerCacheRun ctx n s).2 ∧
    (getWorkerCacheRun none n s).2 = (alookup n s.fallback).getD [] ∧
    ((getWorkerCacheRun none n s).1).workers = s.workers := by
  refine ⟨?_, ?_, ?_⟩
  · cases ctx with
    | none =>
      cases h : alookup n s.fallback with
      | none => simp [getWorkerCacheRun, resolveStore, h, alookup_aset_self]
      | some c => simp [getWorkerCacheRun, resolveStore, h, alookup_aset_self]
    | some w =>
      cases hw : alookup w s.workers with
      | none => simp [getWorkerCacheRun, resolveStore, hw, alookup_aset_self]
      | some st =>
        cases h : alookup n st with
        | none => simp [getWorkerCacheRun, resolveStore, hw, h, alookup_aset_self]
        | some c => simp [getWorkerCacheRun, resolveStore, hw, h, alookup_aset_self]
  · cases h : alookup n s.fallback <;> simp [getWorkerCacheRun, h]
  · cases h : alookup n s.fallback <;> simp [getWorkerCacheRun, h]

/-- C9: releasing with the empty string as name is indistinguishable from
releasing with no name at all: the source tests `if name:` (truthiness), so
the empty string takes the discard-the-whole-store branch in every
context. -/
theorem clean_empty_name_eq_none (ctx : Option Nat) (s : CacheState K V) :
    cleanWorkerCache ctx (some "") s = cleanWorkerCache ctx none s := by
  cases ctx with
  | none =>
    cases h : s.fallback.isEmpty <;>
      simp [cleanWorkerCache, h, pyTruthy_none_eq, pyTruthy_empty_eq]
  | some w =>
    cases hw : alookup w s.workers <;>
      simp [cleanWorkerCache, hw, pyTruthy_none_eq, pyTruthy_empty_eq]

/-- C10: `ReleaseNamedCache` is atomic on failure: whenever it reports a
`KeyError`, the whole registry state (the resolved Store, every Named Cache
in it, and every other Store) is exactly what it was before the call. -/
theorem clean_error_state_unchanged (ctx : Option Nat) (name : Option String)
    (s : CacheState K V) (h : (cleanWorkerCache ctx name s).2 ≠ none) :
    (cleanWorkerCache ctx name s).1 = s := by
  cases ctx with
  | none =>
    cases he : s.fallback.isEmpty with
    | true => simp [cleanWorkerCache, he] at h
    | false =>
      cases hn : pyTruthy name with
      | false => simp [cleanWorkerCache, he, hn] at h
      | true =>
        cases hl : alookup (name.getD "") s.fallback with
        | some c => simp [cleanWorkerCache, he, hn, hl] at h
        | none => simp [cleanWorkerCache, he, hn, hl]
  | some w =>
    cases hw : alookup w s.workers with
    | none => simp [cleanWorkerCache, hw] at h
    | some st =>
      cases hn : pyTruthy name with
      | false => simp [cleanWorkerCache, hw, hn] at h
      | true =>
        cases hl : alookup (name.getD "") st with
        | some c => simp [cleanWorkerCache, hw, hn, hl] at h
        | none => simp [cleanWorkerCache, hw, hn, hl]

/-- Witness for C10 at a concrete failing input: deleting the missing name
`"x"` from a fallback Store holding only `"a"` raises and leaves the state
untouched. -/
theorem clean_error_state_unchanged_witness :
    (cleanWorkerCache (K := Nat) (V := Nat) none (some "x")
        ⟨[("a", [(1, 2)])], []⟩).2 ≠ none ∧
    (cleanWorkerCache (K := Nat) (V := Nat) none (some "x")
        ⟨[("a", [(1, 2)])], []⟩).1 = ⟨[("a", [(1, 2)])], []⟩ :=
  ⟨by decide, clean_error_state_unchanged none (some "x") ⟨[("a", [(1, 2)])], []⟩ (by decide)⟩

/-- C4: Store isolation by worker identity — acquiring and writing the
Named Cache for `n` in worker context `w1` leaves the entire worker store
of any other worker `w2` untouched, so the write is never observable
through the Named Cache obtained for `n` (or any name) in `w2`. -/
theorem worker_store_separation (w1 w2 : Nat) (h : w1 ≠ w2) (n : String)
    (k : K) (v : V) (s : CacheState K V) :
    alookup w2
        (cacheWrite (some w1) n k v (getWorkerCacheRun (some w1) n s).1).workers =
      alookup w2 s.workers := by
  cases hw : alookup w1 s.workers with
  | none =>
    simp [getWorkerCacheRun, cacheWrite, hw, alookup_aset_self, alookup_aset_ne h]
  | some st =>
    cases hn : alookup n st with
    | none =>
      simp [getWorkerCacheRun, cacheWrite, hw, hn, alookup_aset_self, alookup_aset_ne h]
    | some c =>
      simp [getWorkerCacheRun, cacheWrite, hw, hn, alookup_aset_self, alookup_aset_ne h]

/-- Witness for C4: worker 0 acquires and writes under `"n"`; worker 1's
store (holding its own `"n"` cache) is unchanged. -/
theorem worker_store_separation_witness :
    (0 : Nat) ≠ 1 ∧
    alookup 1 (cacheWrite (K := Nat) (V := Nat) (some 0) "n" 5 7
        (getWorkerCacheRun (some 0) "n" ⟨[], [(1, [("n", [(9, 9)])])]⟩).1).workers =
      alookup 1 (⟨[], [(1, [("n", [(9, 9)])])]⟩ : CacheState Nat Nat).workers :=
  ⟨by decide, worker_store_separation 0 1 (by decide) "n" 5 7 _⟩

/-- C5: namespace isolation — within one execution context, acquiring and
writing a key/value into the Named Cache under `n1` leaves the Store entry
for any distinct name `n2` (hence that Named Cache and its contents)
exactly unchanged. -/
theorem name_isolation (ctx : Option Nat) (n1 n2 : String) (h : n1 ≠ n2)
    (k : K) (v : V) (s : CacheState K V) :
    alookup n2
        (resolveStore ctx (cacheWrite ctx n1 k v (getWorkerCacheRun ctx n1 s).1)) =
      alookup n2 (resolveStore ctx s) := by
  cases ctx with
  | none =>
    cases hn : alookup n1 s.fallback with
    | none =>
      simp [getWorkerCacheRun, cacheWrite, resolveStore, hn,
        alookup_aset_self, alookup_aset_ne h]
    | some c =>
      simp [getWorkerCacheRun, cacheWrite, resolveStore, hn,
        alookup_aset_self, alookup_aset_ne h]
  | some w =>
    cases hw : alookup w s.workers with
    | none =>
      simp [getWorkerCacheRun, cacheWrite, resolveStore, hw,
        alookup_aset_self, alookup_aset_ne h, alookup, h]
    | some st =>
      cases hn : alookup n1 st with
      | none =>
        simp [getWorkerCacheRun, cacheWrite, resolveStore, hw, hn,
          alookup_aset_self, alookup_aset_ne h]
      | some c =>
        simp [getWorkerCacheRun, cacheWrite, resolveStore, hw, hn,
          alookup_aset_self, alookup_aset_ne h]

/-- Witness for C5: writing under `"n1"` in the fallback context leaves the
entry for `"n2"` unchanged. -/
theorem name_isolation_witness :
    ("n1" : String) ≠ "n2" ∧
    alookup "n2" (resolveStore none (cacheWrite (K := Nat) (V := Nat) none "n1" 5 7
        (getWorkerCacheRun none "n1" ⟨[("n2", [(3, 4)])], []⟩).1)) =
      alookup "n2" (resolveStore none (⟨[("n2", [(3, 4)])], []⟩ : CacheState Nat Nat)) :=
  ⟨by decide, name_isolation none "n1" "n2" (by decide) 5 7 _⟩

/-- Scenario of C6: acquire and write `(k1, v1)` under name `a`, acquire
and write `(k2, v2)` under name `b`, then release name `a`. -/
def releaseScenario (ctx : Option Nat) (a b : String) (k1 k2 : K) (v1 v2 : V)
    (s : CacheState K V) : CacheState K V × Option CacheError :=
  cleanWorkerCache ctx (some a)
    (cacheWrite ctx b k2 v2 (getWorkerCacheRun ctx b
      (cacheWrite ctx a k1 v1 (getWorkerCacheRun ctx a s).1)).1)

/-- C6: targeted deletion — after writing under names `a` and `b` in the
same context, `ReleaseNamedCache(a)` succeeds, a subsequent acquire of `a`
returns a fresh empty cache, an acquire of `b` still returns the cache
holding its written value, and every Store entry other than `a` is exactly
as it was before the release. -/
theorem targeted_release (ctx : Option Nat) (a b : String) (hab : a ≠ b)
    (ha : a ≠ "") (m : String) (hm : m ≠ a) (k1 k2 : K) (v1 v2 : V)
    (s : CacheState K V) :
    (releaseScenario ctx a b k1 k2 v1 v2 s).2 = none ∧
    (getWorkerCacheRun ctx a (releaseScenario ctx a b k1 k2 v1 v2 s).1).2 = [] ∧
    alookup k2 (getWorkerCacheRun ctx b (releaseScenario ctx a b k1 k2 v1 v2 s).1).2 =
      some v2 ∧
    alookup m (resolveStore ctx (releaseScenario ctx a b k1 k2 v1 v2 s).1) =
      alookup m (resolveStore ctx
        (cacheWrite ctx b k2 v2 (getWorkerCacheRun ctx b
          (cacheWrite ctx a k1 v1 (getWorkerCacheRun ctx a s).1)).1)) := by
  have hba : b ≠ a := fun hba => hab hba.symm
  have hma : a ≠ m := Ne.symm hm
  cases ctx with
  | none =>
    cases h1 : alookup a s.fallback with
    | none =>
      cases h2 : alookup b (aset a (aset k1 v1 []) (aset a ([] : Cache K V) s.fallback)) with
      | none =>
        simp [releaseScenario, getWorkerCacheRun, cacheWrite, cleanWorkerCache,
          resolveStore, h1, h2, alookup_aset_self, alookup_aset_ne hab,
          alookup_aset_ne hba, alookup_aset_ne hm, alookup_aerase_self,
          alookup_aerase_ne hab, alookup_aerase_ne hma, aset_isEmpty, pyTruthy_some_eq ha]
      | some cb =>
        simp [releaseScenario, getWorkerCacheRun, cacheWrite, cleanWorkerCache,
          resolveStore, h1, h2, alookup_aset_self, alookup_aset_ne hab,
          alookup_aset_ne hba, alookup_aset_ne hm, alookup_aerase_self,
          alookup_aerase_ne hab, alookup_aerase_ne hma, aset_isEmpty, pyTruthy_some_eq ha]
    | some ca =>
      cases h2 : alookup b (aset a (aset k1 v1 ca) s.fallback) with
      | none =>
        simp [releaseScenario, getWorkerCacheRun, cacheWrite, cleanWorkerCache,
          resolveStore, h1, h2, alookup_aset_self, alookup_aset_ne hab,
          alookup_aset_ne hba, alookup_aset_ne hm, alookup_aerase_self,
          alookup_aerase_ne hab, alookup_aerase_ne hma, aset_isEmpty, pyTruthy_some_eq ha]
      | some cb =>
        simp [releaseScenario, getWorkerCacheRun, cacheWrite, cleanWorkerCache,
          resolveStore, h1, h2, alookup_aset_self, alookup_aset_ne hab,
          alookup_aset_ne hba, alookup_aset_ne hm, alookup_aerase_self,
          alookup_aerase_ne hab, alookup_aerase_ne hma, aset_isEmpty, pyTruthy_some_eq ha]
  | some w =>
    cases hw : alookup w s.workers with
    | none =>
      cases h2 : alookup b (aset a (aset k1 v1 []) (aset a ([] : Cache K V) [])) with
      | none =>
        simp [releaseScenario, getWorkerCacheRun, cacheWrite, cleanWorkerCache,
          resolveStore, hw, h2, alookup_aset_self, alookup_aset_ne hab,
          alookup_aset_ne hba, alookup_aset_ne hm, alookup_aerase_self,
          alookup_aerase_ne hab, alookup_aerase_ne hma, aset_isEmpty, pyTruthy_some_eq ha]
      | some cb =>
        simp [releaseScenario, getWorkerCacheRun, cacheWrite, cleanWorkerCache,
          resolveStore, hw, h2, alookup_aset_self, alookup_aset_ne hab,
          alookup_aset_ne hba, alookup_aset_ne hm, alookup_aerase_self,
          alookup_aerase_ne hab, alookup_aerase_ne hma, aset_isEmpty, pyTruthy_some_eq ha]
    | some st =>
      cases h1 : alookup a st with
      | none =>
        cases h2 : alookup b (aset a (aset k1 v1 []) (aset a ([] : Cache K V) st)) with
        | none =>
          simp [releaseScenario, getWorkerCacheRun, cacheWrite, cleanWorkerCache,
            resolveStore, hw, h1, h2, alookup_aset_self, alookup_aset_ne hab,
            alookup_aset_ne hba, alookup_aset_ne hm, alookup_aerase_self,
            alookup_aerase_ne hab, alookup_aerase_ne hma, aset_isEmpty, pyTruthy_some_eq ha]
        | some cb =>
          simp [releaseScenario, getWorkerCacheRun, cacheWrite, cleanWorkerCache,
            resolveStore, hw, h1, h2, alookup_aset_self, alookup_aset_ne hab,
            alookup_aset_ne hba, alookup_aset_ne hm, alookup_aerase_self,
            alookup_aerase_ne hab, alookup_aerase_ne hma, aset_isEmpty, pyTruthy_some_eq ha]
      | some ca =>
        cases h2 : alookup b (aset a (aset k1 v1 ca) st) with
        | none =>
          simp [releaseScenario, getWorkerCacheRun, cacheWrite, cleanWorkerCache,
            resolveStore, hw, h1, h2, alookup_aset_self, alookup_aset_ne hab,
            alookup_aset_ne hba, alookup_aset_ne hm, alookup_aerase_self,
            alookup_aerase_ne hab, alookup_aerase_ne hma, aset_isEmpty, pyTruthy_some_eq ha]
        | some cb =>
          simp [releaseScenario, getWorkerCacheRun, cacheWrite, cleanWorkerCache,
            resolveStore, hw, h1, h2, alookup_aset_self, alookup_aset_ne hab,
            alookup_aset_ne hba, alookup_aset_ne hm, alookup_aerase_self,
            alookup_aerase_ne hab, alookup_aerase_ne hma, aset_isEmpty, pyTruthy_some_eq ha]

/-- Witness for C6 at a concrete input: fallback context, fresh state,
names `"a"` and `"b"`, frame checked at name `"c"`. -/
theorem targeted_release_witness :
    (("a" : String) ≠ "b" ∧ ("a" : String) ≠ "" ∧ ("c" : String) ≠ "a") ∧
    ((releaseScenario (K := Nat) (V := Nat) none "a" "b" 1 2 10 20 ⟨[], []⟩).2 = none ∧
    (getWorkerCacheRun none "a"
        (releaseScenario (K := Nat) (V := Nat) none "a" "b" 1 2 10 20 ⟨[], []⟩).1).2 = [] ∧
    alookup 2 (getWorkerCacheRun none "b"
        (releaseScenario (K := Nat) (V := Nat) none "a" "b" 1 2 10 20 ⟨[], []⟩).1).2 =
      some 20 ∧
    alookup "c" (resolveStore none
        (releaseScenario (K := Nat) (V := Nat) none "a" "b" 1 2 10 20 ⟨[], []⟩).1) =
      alookup "c" (resolveStore none
        (cacheWrite none "b" 2 20 (getWorkerCacheRun none "b"
          (cacheWrite none "a" 1 10
            (getWorkerCacheRun (K := Nat) (V := Nat) none "a" ⟨[], []⟩).1)).1))) :=
  ⟨⟨by decide, by decide, by decide⟩,
    targeted_release none "a" "b" (by decide) (by decide) "c" (by decide) 1 2 10 20 ⟨[], []⟩⟩

/-- Counterexample to C2 as stated: in worker context `0` whose attached
store exists but is empty, releasing the missing name `"x"` raises a
`KeyError` even though the resolved Store is empty, so "raises iff the
Store exists, is non-empty, and lacks the name" fails. -/
theorem clean_keyerror_iff_counterexample :
    ¬ (((cleanWorkerCache (K := Nat) (V := Nat) (some 0) (some "x")
          ⟨[], [(0, [])]⟩).2 ≠ none) ↔
        ((alookup 0 (⟨[], [(0, [])]⟩ : CacheState Nat Nat).workers).isSome ∧
         resolveStore (some 0) (⟨[], [(0, [])]⟩ : CacheState Nat Nat) ≠ [] ∧
         alookup "x" (resolveStore (some 0)
           (⟨[], [(0, [])]⟩ : CacheState Nat Nat)) = none)) := by
  decide

/-- C2 (amended): for a non-empty (truthy) name `n`, `ReleaseNamedCache(n)`
raises `KeyError` iff the resolved Store exists and has no entry for `n`,
where the fallback Store counts as existing only when non-empty while a
worker's attached store counts even when empty; and when the Store is
absent (no attached worker store, or empty fallback) the call is a no-op
that raises nothing and changes nothing. -/
theorem clean_keyerror_iff (ctx : Option Nat) (n : String) (hn : n ≠ "")
    (s : CacheState K V) :
    ((cleanWorkerCache ctx (some n) s).2 ≠ none ↔
      (match ctx with
       | none => s.fallback ≠ [] ∧ alookup n s.fallback = none
       | some w => (alookup w s.workers).isSome ∧
           alookup n ((alookup w s.workers).getD []) = none)) ∧
    ((match ctx with
       | none => s.fallback = []
       | some w => alookup w s.workers = none) →
      cleanWorkerCache ctx (some n) s = (s, none)) := by
  cases ctx with
  | none =>
    cases hfb : s.fallback with
    | nil => simp [cleanWorkerCache, hfb]
    | cons p l =>
      cases hl : alookup n (p :: l) with
      | none => simp [cleanWorkerCache, hfb, hl, pyTruthy_some_eq hn]
      | some c => simp [cleanWorkerCache, hfb, hl, pyTruthy_some_eq hn]
  | some w =>
    cases hw : alookup w s.workers with
    | none => simp [cleanWorkerCache, hw]
    | some st =>
      cases hl : alookup n st with
      | none => simp [cleanWorkerCache, hw, hl, pyTruthy_some_eq hn]
      | some c => simp [cleanWorkerCache, hw, hl, pyTruthy_some_eq hn]

/-- Witness for the amended C2 at a concrete input: worker `0` with an
attached store holding only `"a"`, releasing the missing name `"x"`. -/
theorem clean_keyerror_iff_witness :
    ("x" : String) ≠ "" ∧
    (((cleanWorkerCache (K := Nat) (V := Nat) (some 0) (some "x")
          ⟨[], [(0, [("a", [(1, 2)])])]⟩).2 ≠ none ↔
        ((alookup 0 (⟨[], [(0, [("a", [(1, 2)])])]⟩ : CacheState Nat Nat).workers).isSome ∧
         alookup "x" ((alookup 0
           (⟨[], [(0, [("a", [(1, 2)])])]⟩ : CacheState Nat Nat).workers).getD []) = none)) ∧
      (alookup 0 (⟨[], [(0, [("a", [(1, 2)])])]⟩ : CacheState Nat Nat).workers = none →
        cleanWorkerCache (some 0) (some "x") ⟨[], [(0, [("a", [(1, 2)])])]⟩ =
          (⟨[], [(0, [("a", [(1, 2)])])]⟩, none))) :=
  ⟨by decide, clean_keyerror_iff (some 0) "x" (by decide) ⟨[], [(0, [("a", [(1, 2)])])]⟩⟩

end NVTabular
